import Mathlib

/-!
Verification of the domain-validator engine (src/email-domain-validator.py).

The Python program is shallowly embedded: every network interaction
(DNS resolution, HTTPS/HTTP GET, raw TCP connect) is a field of a
`NetEnv` record, so each run of the engine is a pure function of the
environment.  Outcomes of a network call are modelled three ways,
mirroring the except-clauses of the source: a normal answer, the
failure kinds the source catches locally, and an unexpected exception
carrying a message, which propagates to the per-domain boundary
(`Except String`).  Strings are handled with structural recursion over
the underlying character list so that closed terms evaluate inside the
kernel.
-/

/-! ## String helpers (Python semantics) -/

/-- Python whitespace stripped by `str.strip()` (ASCII subset; after the
format gate only a trailing newline can actually occur). -/
def isSpacePy (c : Char) : Bool :=
  c = ' ' || c = '\t' || c = '\n' || c = '\r' || c = '\x0b' || c = '\x0c'

/-- `str.strip()`. -/
def trimStr (s : String) : String :=
  ⟨((s.data.dropWhile isSpacePy).reverse.dropWhile isSpacePy).reverse⟩

/-- `str.lower()` (ASCII; all strings reaching it in the engine are ASCII). -/
def lowerStr (s : String) : String :=
  ⟨s.data.map Char.toLower⟩

/-- Bool test that `needle` starts the list `hay`. -/
def startsList : List Char → List Char → Bool
  | _, [] => true
  | [], _ :: _ => false
  | c :: cs, d :: ds => c = d && startsList cs ds

/-- Substring occurrence over char lists. -/
def hasSubAux (needle : List Char) : List Char → Bool
  | [] => needle.isEmpty
  | c :: cs => startsList (c :: cs) needle || hasSubAux needle cs

/-- Python `needle in hay` for strings. -/
def hasSub (hay needle : String) : Bool :=
  hasSubAux needle.data hay.data

/-- `str.split(sep)` worker for a single-character separator. -/
def splitAux (sep : Char) (acc : List Char) : List Char → List (List Char)
  | [] => [acc.reverse]
  | c :: cs => if c = sep then acc.reverse :: splitAux sep [] cs else splitAux sep (c :: acc) cs

/-- Python `domain.split('.')`. -/
def splitDots (s : String) : List String :=
  (splitAux '.' [] s.data).map (fun l => ⟨l⟩)

/-- Python `domain.count('.')`. -/
def countDot (s : String) : Nat :=
  s.data.count '.'

/-- Python `'.'.join(parts)`. -/
def joinDots : List String → String
  | [] => ""
  | [x] => x
  | x :: y :: rest => x ++ "." ++ joinDots (y :: rest)

/-! ## Domain-format gate (line 34 of the source)

The gate is `re.match(r"^[a-zA-Z0-9][-a-zA-Z0-9]*(\.[a-zA-Z0-9][-a-zA-Z0-9]*)+$", domain)`.
A match is a sequence of two or more dot-separated labels, each starting
with an ASCII alphanumeric and containing only alphanumerics and hyphens.
Python `$` (without MULTILINE) also matches just before one newline at the
very end of the string, so a grammar match followed by a single trailing
newline passes the gate as well.  `formatOk` models this exactly. -/

/-- One regex label: `[a-zA-Z0-9][-a-zA-Z0-9]*`. -/
def isLabelStr (s : String) : Bool :=
  match s.data with
  | [] => false
  | c :: cs => c.isAlphanum && cs.all (fun d => d.isAlphanum || d = '-')

/-- The pure grammar `label(.label)+`. -/
def matchesGrammar (s : String) : Bool :=
  let parts := splitDots s
  decide (2 ≤ parts.length) && parts.all isLabelStr

/-- `s` ends with a newline character. -/
def endsNewline (s : String) : Bool :=
  match s.data.getLast? with
  | some c => c = '\n'
  | none => false

/-- Drop the final character of `s`. -/
def dropLastChar (s : String) : String :=
  ⟨s.data.dropLast⟩

/-- The format gate as Python evaluates it (grammar match, or grammar match
plus exactly one trailing newline, accepted because of `$` semantics). -/
def formatOk (s : String) : Bool :=
  matchesGrammar s || (endsNewline s && matchesGrammar (dropLastChar s))

/-! ## Configuration lists (verbatim from the source) -/

/-- `DomainValidator.PARKING_KEYWORDS` (lines 15-28).  Note that
`"coming soon"` occurs twice in the source list. -/
def PARKING_KEYWORDS : List String :=
  ["domain is for sale", "buy this domain",
   "domain parking", "parked domain",
   "domain may be for sale", "domain auction",
   "this web page is parked", "this domain is parked",
   "purchase this domain", "inquire about this domain",
   "domain broker", "domain for purchase",
   "coming soon", "register.com", "domain registration",
   "related searches", "whois lookup", "domain name",
   "this domain is available", "pending renewal or deletion",
   "under construction", "page is under construction", "coming soon",
   "networksolutions", "this page is under construction",
   "digi-searches", "why am i seeing this", "trademark free notice"]

/-- `PARKING_MX_PATTERNS` (lines 62-69). -/
def PARKING_MX_PATTERNS : List String :=
  ["park-mx.above.com",
   "sedoparking.com",
   "h-email.net",
   "parkingcrew.net",
   "bodis.com/parking",
   "fabulous.com/park"]

/-- `parking_services` (lines 256-264). -/
def parking_services : List String :=
  ["sedoparking.com", "hugedomains.com/domain_profile", "godaddyparking.com",
   "parkingcrew.net", "parklogic.com", "fabulous.com/park", "bodis.com/parking",
   "register.com/domain", "registrar.godaddy.com", "networksolutions.com/manage-it",
   "domainsponsor", "domaincontrol.com", "namesilo.com/domain",
   "namedrive.com", "crazydomains.com", "buydomains.com", "parked.namecheap.com",
   "i2.cdn-image.com", "digi-searches.com", "cdn-image.com", "cdn.consentmanager.net",
   "delivery.consentmanager.net"]

/-! ## Data model -/

/-- The parsed view of a fetched page used by `check_if_parked`
(BeautifulSoup evidence).  The two regex-based `soup.find` probes on
lines 301-302 and the `Whois Lookup` anchor probe on line 320 are
modelled as boolean facts about the document. -/
structure ParsedHtml where
  /-- `soup.title.text` when the document has a title. -/
  title : Option String
  /-- `soup.get_text()`. -/
  bodyText : String
  /-- `len(soup.find_all('a'))`. -/
  anchorCount : Nat
  /-- `str(soup)`, the raw markup. -/
  markup : String
  /-- an `img` tag with a `cdn-image.com` src is present (line 301). -/
  hasCdnImageImg : Bool
  /-- an anchor with a `digi-searches.com` href is present (line 302). -/
  hasDigiSearchesAnchor : Bool
  /-- an anchor whose text matches `Whois\s+Lookup` is present (line 320). -/
  hasWhoisLookupAnchor : Bool

/-- A `requests` response: final (post-redirect) URL, status code, and the
result of parsing its body (`.error` models a BeautifulSoup failure,
caught on line 326). -/
structure HttpResponse where
  status_code : Nat
  url : String
  parsed : Except String ParsedHtml

/-- Outcome of `dns.resolver.resolve`: answered, one of the resolution
failures caught on lines 87/94/104/114, or an unexpected exception. -/
inductive DnsAnswer where
  | found (records : List String)
  | dnsFail
  | raised (msg : String)
deriving DecidableEq

/-- Outcome of `requests.get`: a response, a caught transport error
(`SSLError` / `RequestException`), or an unexpected exception. -/
inductive Fetch where
  | resp (r : HttpResponse)
  | failed
  | raised (msg : String)

/-- Outcome of `socket.create_connection`: connected, a caught
`socket.timeout`/`socket.error`, or an unexpected exception. -/
inductive SockResult where
  | connected
  | sockFail
  | raised (msg : String)
deriving DecidableEq

/-- The network environment a run observes: DNS answers by (name, record
type), HTTPS and HTTP fetches by domain, socket connects by (host, port). -/
structure NetEnv where
  resolve : String → String → DnsAnswer
  httpsGet : String → Fetch
  httpGet : String → Fetch
  sockConnect : String → Nat → SockResult

/-- The `{"status": ..., "details": ...}` dicts returned by
`_check_single_domain` / `check_domain_liveness`. -/
structure DomainStatus where
  status : String
  details : String
deriving DecidableEq

/-- The result dict built by `check_domain_validity` (lines 48-59 plus the
keys added later; a `none`/`false` field models an absent key). -/
structure Results where
  domain : String
  mx_records : Bool
  a_records : Bool
  spf_record : Option String
  dmarc_record : Option String
  site_live : Bool
  parked_domain : Bool
  valid : Bool
  status : String
  reason : String
  parking_mx : Option String
  domain_details : Option String
deriving DecidableEq

/-! ## Parking Detector (`check_if_parked`, lines 245-332)

The engine always passes the fetched response, so the `response=None`
refetch branch (lines 248-253) is never taken and is not modelled.  The
outer `except` (line 331) is unreachable here because every modelled
operation is total. -/

/-- `soup.title.text.lower() if soup.title else ""` (line 274). -/
def titleText (soup : ParsedHtml) : String :=
  match soup.title with
  | some t => lowerStr t
  | none => ""

/-- The body keyword counting loop (lines 283-287): entries of
`PARKING_KEYWORDS` are counted with multiplicity, so the duplicated
`"coming soon"` entry contributes twice. -/
def bodyKeywordHits (body_text : String) : Nat :=
  (PARKING_KEYWORDS.filter (fun keyword => hasSub body_text (lowerStr keyword))).length

/-- Modelled from the spec wording of rule 3 ("count how many distinct
configured parking keywords appear anywhere in the extracted body
text"): the number of DISTINCT configured keywords occurring in the
body.  Used only to compare the spec with `bodyKeywordHits`. -/
def distinctKeywordHits (body_text : String) : Nat :=
  (PARKING_KEYWORDS.dedup.filter (fun keyword => hasSub body_text (lowerStr keyword))).length

/-- `network_solutions_indicators` (lines 294-305).  `body_text` is already
lower-cased by the caller, so the source's extra `.lower()` calls on
lines 300/304 are identities. -/
def network_solutions_indicators (soup : ParsedHtml) (body_text : String) : Bool :=
  (hasSub body_text "related searches" && hasSub body_text "under construction") ||
  (hasSub body_text "page is under construction" && decide (5 < soup.anchorCount)) ||
  (hasSub body_text "this domain" && hasSub body_text "under construction") ||
  (hasSub soup.markup "cdn-image.com" || hasSub soup.markup "digi-searches.com") ||
  (hasSub soup.markup "networksolutions.com" && hasSub body_text "under construction") ||
  hasSub body_text "trademark free notice" ||
  soup.hasCdnImageImg ||
  soup.hasDigiSearchesAnchor ||
  (hasSub body_text "trademark" && hasSub body_text "notice" &&
    hasSub (lowerStr soup.markup) "networksolutions") ||
  (hasSub body_text "why am i seeing this" && hasSub body_text "under construction")

/-- `parking_indicators` (lines 311-321).  `title` is already lower-cased,
so the source's extra `.lower()` calls on lines 314/318/319 are identities. -/
def parking_indicators (soup : ParsedHtml) (title body_text : String) : Bool :=
  (hasSub body_text "coming soon" && hasSub body_text "register" && hasSub body_text "domain") ||
  (hasSub body_text "related searches" && decide (10 < soup.anchorCount)) ||
  (hasSub title "domain" && hasSub body_text "register" &&
    (hasSub body_text "for sale" || hasSub body_text "parked")) ||
  (hasSub body_text "whois lookup" && hasSub body_text "domain registration") ||
  (hasSub body_text "copyright" && hasSub body_text "register.com") ||
  (decide ((trimStr body_text).length < 300) && decide (15 < soup.anchorCount) &&
    hasSub body_text "domain") ||
  (hasSub title "coming soon" && hasSub title "domain") ||
  hasSub title "parked" ||
  (soup.hasWhoisLookupAnchor && decide ((trimStr body_text).length < 800))

/-- `check_if_parked(domain, response)` with a response supplied (the only
way the engine calls it).  Returns the `(is_parked, reason)` pair. -/
def check_if_parked (response : HttpResponse) : Bool × String :=
  if parking_services.any (fun s => hasSub (lowerStr response.url) s) then
    (true, "Redirects to parking service")
  else
    match response.parsed with
    | .error e => (false, "Could not parse HTML content: " ++ e)
    | .ok soup =>
      let title := titleText soup
      match PARKING_KEYWORDS.find? (fun keyword => hasSub title (lowerStr keyword)) with
      | some keyword => (true, "Contains parking keyword in title: \x27" ++ keyword ++ "\x27")
      | none =>
        let body_text := lowerStr soup.bodyText
        let parking_phrase_count := bodyKeywordHits body_text
        if 3 ≤ parking_phrase_count then
          (true, "Contains multiple parking keywords (" ++ Nat.repr parking_phrase_count ++ ")")
        else if network_solutions_indicators soup body_text then
          (true, "Detected Network Solutions \x27Under Construction\x27 page")
        else if parking_indicators soup title body_text then
          (true, "Detected parking page pattern")
        else
          (false, "Not parked")

/-! ## Liveness Prober (`_check_single_domain`, lines 201-243)

The fixed fallback chain: HTTPS GET, HTTP GET, TCP connect to port 80,
TCP connect to port 443.  The source is one function; the HTTP and
socket fallback tails are split into named helpers here so the chain
can be traced, with each helper mirroring its block of the source. -/

/-- Lines 234-243: the socket fallback tail. -/
def sockFallback (env : NetEnv) (domain : String) : Except String DomainStatus :=
  match env.sockConnect domain 80 with
  | .connected => .ok ⟨"live", "Socket connection successful, but HTTP failed"⟩
  | .raised m => .error m
  | .sockFail =>
    match env.sockConnect domain 443 with
    | .connected => .ok ⟨"live", "Socket connection successful, but HTTP failed"⟩
    | .raised m => .error m
    | .sockFail => .ok ⟨"dead", "Failed all connection attempts"⟩

/-- Lines 221-232: the HTTP attempt, falling back to sockets. -/
def httpFallback (env : NetEnv) (domain : String) : Except String DomainStatus :=
  match env.httpGet domain with
  | .raised m => .error m
  | .resp response =>
    if response.status_code < 400 then
      match check_if_parked response with
      | (true, parking_reason) => .ok ⟨"parked", parking_reason⟩
      | (false, _) => .ok ⟨"live", "HTTP: " ++ Nat.repr response.status_code⟩
    else sockFallback env domain
  | .failed => sockFallback env domain

/-- `_check_single_domain` (lines 201-243): HTTPS first, then the chain. -/
def checkSingleDomain (env : NetEnv) (domain : String) : Except String DomainStatus :=
  match env.httpsGet domain with
  | .raised m => .error m
  | .resp response =>
    if response.status_code < 400 then
      match check_if_parked response with
      | (true, parking_reason) => .ok ⟨"parked", parking_reason⟩
      | (false, _) => .ok ⟨"live", "HTTPS: " ++ Nat.repr response.status_code⟩
    else httpFallback env domain
  | .failed => httpFallback env domain

/-- Which network attempts the prober makes, in order. -/
inductive Attempt where
  | httpsReq
  | httpReq
  | sock80
  | sock443
deriving DecidableEq

/-- `sockFallback` instrumented with the attempts it makes. -/
def traceSock (env : NetEnv) (domain : String) : Except String DomainStatus × List Attempt :=
  match env.sockConnect domain 80 with
  | .connected => (.ok ⟨"live", "Socket connection successful, but HTTP failed"⟩, [.sock80])
  | .raised m => (.error m, [.sock80])
  | .sockFail =>
    match env.sockConnect domain 443 with
    | .connected => (.ok ⟨"live", "Socket connection successful, but HTTP failed"⟩, [.sock80, .sock443])
    | .raised m => (.error m, [.sock80, .sock443])
    | .sockFail => (.ok ⟨"dead", "Failed all connection attempts"⟩, [.sock80, .sock443])

/-- `httpFallback` instrumented with the attempts it makes. -/
def traceHttp (env : NetEnv) (domain : String) : Except String DomainStatus × List Attempt :=
  match env.httpGet domain with
  | .raised m => (.error m, [.httpReq])
  | .resp response =>
    if response.status_code < 400 then
      match check_if_parked response with
      | (true, parking_reason) => (.ok ⟨"parked", parking_reason⟩, [.httpReq])
      | (false, _) => (.ok ⟨"live", "HTTP: " ++ Nat.repr response.status_code⟩, [.httpReq])
    else ((traceSock env domain).1, .httpReq :: (traceSock env domain).2)
  | .failed => ((traceSock env domain).1, .httpReq :: (traceSock env domain).2)

/-- `_check_single_domain` instrumented with the attempts it makes. -/
def checkSingleDomainTrace (env : NetEnv) (domain : String) : Except String DomainStatus × List Attempt :=
  match env.httpsGet domain with
  | .raised m => (.error m, [.httpsReq])
  | .resp response =>
    if response.status_code < 400 then
      match check_if_parked response with
      | (true, parking_reason) => (.ok ⟨"parked", parking_reason⟩, [.httpsReq])
      | (false, _) => (.ok ⟨"live", "HTTPS: " ++ Nat.repr response.status_code⟩, [.httpsReq])
    else ((traceHttp env domain).1, .httpsReq :: (traceHttp env domain).2)
  | .failed => ((traceHttp env domain).1, .httpsReq :: (traceHttp env domain).2)

/-- A fetch produced a response with status code below 400. -/
def fetchBelow400 : Fetch → Bool
  | .resp r => decide (r.status_code < 400)
  | .failed => false
  | .raised _ => false

/-! ## Root-Domain Escalator (`check_domain_liveness`, lines 174-199) -/

/-- `check_domain_liveness` (lines 174-199): probe the domain; if dead and
it has more than one dot, probe the root formed from the last two labels,
upgrading to `subdomain_dead` only when that root probes live.  The
`print` on line 189 is console noise and not modelled. -/
def check_domain_liveness (env : NetEnv) (domain0 : String) : Except String DomainStatus :=
  let domain := lowerStr (trimStr domain0)
  (checkSingleDomain env domain).bind fun domain_status =>
    if domain_status.status = "dead" ∧ 1 < countDot domain then
      let parts := splitDots domain
      let root_domain := joinDots (parts.drop (parts.length - 2))
      if 2 < parts.length then
        (checkSingleDomain env root_domain).bind fun root_status =>
          if root_status.status = "live" then
            .ok ⟨"subdomain_dead", "Subdomain is dead, but root domain " ++ root_domain ++ " is live"⟩
          else
            .ok domain_status
      else
        .ok domain_status
    else
      .ok domain_status

/-! ## Classification Engine (`check_domain_validity`, lines 30-172)

Each DNS try/except block of the source becomes a step function; the
result is `Except String`, a `.error` being an exception that escapes
the block and reaches the outer handler on line 162. -/

/-- The MX parking scan (lines 78-86): first record whose lower-cased
exchange text contains a configured pattern, lower-cased. -/
def findParkingMx : List String → Option String
  | [] => none
  | record :: rest =>
    let mx_host := lowerStr record
    if PARKING_MX_PATTERNS.any (fun pattern => hasSub mx_host pattern) then some mx_host
    else findParkingMx rest

/-- The SPF/DMARC record loops (lines 100-103, 110-113): the dict slot
keeps the LAST record containing the marker. -/
def lastContaining (marker : String) (records : List String) : Option String :=
  records.foldl (fun acc record => if hasSub record marker then some record else acc) none

/-- MX try/except (lines 72-88): resolution failure means no MX records
and no parking host. -/
def mxStep (env : NetEnv) (domain : String) : Except String (Bool × Option String) :=
  match env.resolve domain "MX" with
  | .found mx_records => .ok (true, findParkingMx mx_records)
  | .dnsFail => .ok (false, none)
  | .raised m => .error m

/-- A-record try/except (lines 91-95). -/
def aStep (env : NetEnv) (domain : String) : Except String Bool :=
  match env.resolve domain "A" with
  | .found _ => .ok true
  | .dnsFail => .ok false
  | .raised m => .error m

/-- SPF try/except (lines 98-105). -/
def spfStep (env : NetEnv) (domain : String) : Except String (Option String) :=
  match env.resolve domain "TXT" with
  | .found txt_records => .ok (lastContaining "v=spf1" txt_records)
  | .dnsFail => .ok none
  | .raised m => .error m

/-- DMARC try/except (lines 108-115). -/
def dmarcStep (env : NetEnv) (domain : String) : Except String (Option String) :=
  match env.resolve ("_dmarc." ++ domain) "TXT" with
  | .found dmarc_records => .ok (lastContaining "v=DMARC1" dmarc_records)
  | .dnsFail => .ok none
  | .raised m => .error m

/-- The early-return dict for a failed format gate (lines 35-44); it keeps
the ORIGINAL, un-normalized domain string. -/
def formatFailResults (domain : String) : Results :=
  { domain := domain, mx_records := false, a_records := false, spf_record := none,
    dmarc_record := none, site_live := false, parked_domain := false, valid := false,
    status := "Invalid", reason := "Invalid domain format", parking_mx := none,
    domain_details := none }

/-- Lines 131-158: fold the liveness outcome into the result record and
derive `valid` from the final status. -/
def finishClassification (base : Results) (domain_status : DomainStatus) : Results :=
  let r1 := { base with site_live := domain_status.status == "live",
                        domain_details := some domain_status.details }
  let r2 :=
    if domain_status.status = "parked" then
      { r1 with parked_domain := true, status := "Invalid", reason := domain_status.details }
    else if domain_status.status = "dead" then
      if r1.mx_records = true then
        { r1 with status := "Risky", reason := "Has MX records but site isn\x27t live" }
      else
        { r1 with status := "Invalid", reason := domain_status.details }
    else
      { r1 with status := "Valid", reason := "Domain passed all checks" }
  { r2 with valid := r2.status == "Valid" }

/-- The body of the `try` on lines 32-160: gate, normalize, gather DNS
evidence, decide.  A `.error` is an exception escaping to line 162. -/
def checkBody (env : NetEnv) (domain0 : String) : Except String Results :=
  if formatOk domain0 = false then
    .ok (formatFailResults domain0)
  else
    let domain := lowerStr (trimStr domain0)
    (mxStep env domain).bind fun mxres =>
    (aStep env domain).bind fun a_records =>
    (spfStep env domain).bind fun spf_record =>
    (dmarcStep env domain).bind fun dmarc_record =>
    let base : Results :=
      { domain := domain, mx_records := mxres.1, a_records := a_records,
        spf_record := spf_record, dmarc_record := dmarc_record, site_live := false,
        parked_domain := false, valid := false, status := "Unknown", reason := "",
        parking_mx := mxres.2, domain_details := none }
    if base.mx_records = false ∧ base.a_records = false then
      .ok { base with status := "Invalid", reason := "No MX or A records found" }
    else
      match mxres.2 with
      | some mx_host =>
        .ok { base with parked_domain := true, status := "Invalid",
                        reason := "Domain uses parking MX: " ++ mx_host }
      | none =>
        (check_domain_liveness env domain).bind fun domain_status =>
        .ok (finishClassification base domain_status)

/-- The fallback dict built by the handler on lines 162-172.  Every raise
site sits after the rebinding on line 46, so the `domain` slot holds the
normalized string. -/
def errorResults (domain : String) (m : String) : Results :=
  { domain := domain, mx_records := false, a_records := false, spf_record := none,
    dmarc_record := none, site_live := false, parked_domain := false, valid := false,
    status := "Invalid", reason := "Error checking records: " ++ m, parking_mx := none,
    domain_details := none }

/-- `check_domain_validity` (lines 30-172): the per-domain boundary. -/
def check_domain_validity (env : NetEnv) (domain0 : String) : Results :=
  match checkBody env domain0 with
  | .ok results => results
  | .error m => errorResults (lowerStr (trimStr domain0)) m

/-! ## Batch Orchestrator (`process_domain_list`, lines 334-423)

Input filtering and the one-result-per-domain guarantee are modelled;
thread-pool completion order, console printing and the CSV sink are
not part of the result list's content. -/

/-- Line 338: keep non-blank lines containing a dot, stripped. -/
def loadDomains (lines : List String) : List String :=
  (lines.filter (fun line => !(trimStr line == "") && hasSub (trimStr line) ".")).map trimStr

/-- The batch run: one `check_domain_validity` result per kept line. -/
def process_domain_list (env : NetEnv) (lines : List String) : List Results :=
  (loadDomains lines).map (fun domain => check_domain_validity env domain)

/-! ## Concrete environments used by witnesses and counterexamples -/

/-- An unremarkable corporate page: no parking signal whatsoever. -/
def benignPage : ParsedHtml :=
  { title := some "Example Corporate Site",
    bodyText := "hello world welcome to our corporate site",
    anchorCount := 0, markup := "<html><body>hello</body></html>",
    hasCdnImageImg := false, hasDigiSearchesAnchor := false, hasWhoisLookupAnchor := false }

/-- A 200 HTTPS response for the root domain `example.com`. -/
def okRespRoot : HttpResponse :=
  { status_code := 200, url := "https://example.com/", parsed := .ok benignPage }

/-- `mail.example.com` has an A record but no web presence of its own;
its root `example.com` serves a benign 200 page over HTTPS. -/
def envC1 : NetEnv :=
  { resolve := fun host rtype =>
      if rtype = "A" ∧ host = "mail.example.com" then .found ["93.184.216.34"] else .dnsFail
    httpsGet := fun host => if host = "example.com" then .resp okRespRoot else .failed
    httpGet := fun _ => .failed
    sockConnect := fun _ _ => .sockFail }

/-- A body containing exactly two distinct parking keywords, one of them
the duplicated `"coming soon"`. -/
def parkedBody2 : ParsedHtml :=
  { title := none, bodyText := "coming soon domain name", anchorCount := 0, markup := "",
    hasCdnImageImg := false, hasDigiSearchesAnchor := false, hasWhoisLookupAnchor := false }

/-- A 200 response serving `parkedBody2` from a non-parking URL. -/
def respC2 : HttpResponse :=
  { status_code := 200, url := "http://twokeywords.test/", parsed := .ok parkedBody2 }

/-- Every network operation fails with a caught error kind. -/
def envDead : NetEnv :=
  { resolve := fun _ _ => .dnsFail
    httpsGet := fun _ => .failed
    httpGet := fun _ => .failed
    sockConnect := fun _ _ => .sockFail }

/-- Every DNS resolution raises an unexpected exception with message `boom`. -/
def envRaise : NetEnv :=
  { resolve := fun _ _ => .raised "boom"
    httpsGet := fun _ => .failed
    httpGet := fun _ => .failed
    sockConnect := fun _ _ => .sockFail }

/-- A 200 HTTPS response for the host `a.b`. -/
def okRespAB : HttpResponse :=
  { status_code := 200, url := "https://a.b/", parsed := .ok benignPage }

/-- A fully healthy environment: MX and A records resolve everywhere and
every HTTPS fetch returns the benign 200 page. -/
def envOk : NetEnv :=
  { resolve := fun _ rtype =>
      if rtype = "MX" then .found ["mx1.mailhost.test."]
      else if rtype = "A" then .found ["10.0.0.1"]
      else .dnsFail
    httpsGet := fun _ => .resp okRespAB
    httpGet := fun _ => .failed
    sockConnect := fun _ _ => .sockFail }

/-- MX resolution returns a clean host followed by a Sedo parking host. -/
def envC7 : NetEnv :=
  { resolve := fun _ rtype =>
      if rtype = "MX" then .found ["mx0.good.test.", "MX1.SedoParking.com."] else .dnsFail
    httpsGet := fun _ => .failed
    httpGet := fun _ => .failed
    sockConnect := fun _ _ => .sockFail }

/-- An MX record exists but the web site is completely unreachable. -/
def envC8 : NetEnv :=
  { resolve := fun _ rtype => if rtype = "MX" then .found ["mx.barmail.test."] else .dnsFail
    httpsGet := fun _ => .failed
    httpGet := fun _ => .failed
    sockConnect := fun _ _ => .sockFail }

/-- Run one of a pair differing only in TXT answers: here TXT resolves. -/
def envTxtA : NetEnv :=
  { resolve := fun _ rtype =>
      if rtype = "TXT" then .found ["\"v=spf1 include:spf.test -all\""]
      else if rtype = "A" then .found ["10.0.0.2"]
      else .dnsFail
    httpsGet := fun _ => .resp okRespAB
    httpGet := fun _ => .failed
    sockConnect := fun _ _ => .sockFail }

/-- The other of the pair: TXT lookups fail, everything else identical. -/
def envTxtB : NetEnv :=
  { resolve := fun _ rtype =>
      if rtype = "TXT" then .dnsFail
      else if rtype = "A" then .found ["10.0.0.2"]
      else .dnsFail
    httpsGet := fun _ => .resp okRespAB
    httpGet := fun _ => .failed
    sockConnect := fun _ _ => .sockFail }

/-! ## Supporting lemmas -/

/-- A successful `Except.bind` factors through a successful first stage. -/
theorem bind_ok {α β : Type} (x : Except String α) (f : α → Except String β) (b : β)
    (h : x.bind f = .ok b) : ∃ a, x = .ok a ∧ f a = .ok b := by
  cases x with
  | ok a => exact ⟨a, rfl, h⟩
  | error m => simp [Except.bind] at h

/-- The MX parking scan returns the lower-casing of the first record whose
lower-cased text contains a configured pattern. -/
theorem findParkingMx_eq (l : List String) :
    findParkingMx l = (l.find? (fun record =>
      PARKING_MX_PATTERNS.any (fun pattern => hasSub (lowerStr record) pattern))).map lowerStr := by
  induction l with
  | nil => rfl
  | cons record rest ih =>
    by_cases hp : PARKING_MX_PATTERNS.any (fun pattern => hasSub (lowerStr record) pattern) = true
    · simp [findParkingMx, List.find?, hp]
    · simp only [Bool.not_eq_true] at hp
      simp [findParkingMx, List.find?, hp, ih]

/-- Length of the split worker: one part per separator occurrence plus one. -/
theorem splitAux_length (sep : Char) (l : List Char) :
    ∀ acc, (splitAux sep acc l).length = l.count sep + 1 := by
  induction l with
  | nil => intro acc; simp [splitAux]
  | cons c cs ih =>
    intro acc
    by_cases h : c = sep
    · simp [splitAux, h, ih, List.count_cons]
    · simp [splitAux, h, ih, List.count_cons]

/-- `split('.')` produces `count('.') + 1` parts. -/
theorem splitDots_length (s : String) : (splitDots s).length = countDot s + 1 := by
  simp [splitDots, countDot, splitAux_length]

/-- When TXT resolution never raises, the SPF step succeeds. -/
theorem spfStep_ok (env : NetEnv) (x : String)
    (ht : ∀ m, env.resolve x "TXT" ≠ .raised m) : ∃ v, spfStep env x = .ok v := by
  unfold spfStep
  cases h : env.resolve x "TXT" with
  | found records => exact ⟨_, rfl⟩
  | dnsFail => exact ⟨none, rfl⟩
  | raised m => exact absurd h (ht m)

/-- When TXT resolution never raises, the DMARC step succeeds. -/
theorem dmarcStep_ok (env : NetEnv) (x : String)
    (ht : ∀ y m, env.resolve y "TXT" ≠ .raised m) : ∃ v, dmarcStep env x = .ok v := by
  unfold dmarcStep
  cases h : env.resolve ("_dmarc." ++ x) "TXT" with
  | found records => exact ⟨_, rfl⟩
  | dnsFail => exact ⟨none, rfl⟩
  | raised m => exact absurd h (ht _ m)

/-- The single-domain prober only consults the HTTPS/HTTP/socket parts of
the environment. -/
theorem checkSingleDomain_ext (env1 env2 : NetEnv)
    (hh : ∀ x, env1.httpsGet x = env2.httpsGet x)
    (hp : ∀ x, env1.httpGet x = env2.httpGet x)
    (hs : ∀ x p, env1.sockConnect x p = env2.sockConnect x p) :
    ∀ x, checkSingleDomain env1 x = checkSingleDomain env2 x := by
  intro x
  unfold checkSingleDomain httpFallback sockFallback
  rw [hh x, hp x, hs x 80, hs x 443]

/-- The liveness check (with escalation) only consults the
HTTPS/HTTP/socket parts of the environment. -/
theorem check_domain_liveness_ext (env1 env2 : NetEnv)
    (hh : ∀ x, env1.httpsGet x = env2.httpsGet x)
    (hp : ∀ x, env1.httpGet x = env2.httpGet x)
    (hs : ∀ x p, env1.sockConnect x p = env2.sockConnect x p) :
    ∀ x, check_domain_liveness env1 x = check_domain_liveness env2 x := by
  intro x
  unfold check_domain_liveness
  simp only [checkSingleDomain_ext env1 env2 hh hp hs]

/-- The classification fields written by `finishClassification` depend only
on `mx_records` and the liveness outcome. -/
theorem finishClassification_fields (b1 b2 : Results) (ds : DomainStatus)
    (hmx : b1.mx_records = b2.mx_records)
    (hpk : b1.parked_domain = b2.parked_domain) :
    (finishClassification b1 ds).status = (finishClassification b2 ds).status ∧
    (finishClassification b1 ds).reason = (finishClassification b2 ds).reason ∧
    (finishClassification b1 ds).site_live = (finishClassification b2 ds).site_live ∧
    (finishClassification b1 ds).parked_domain = (finishClassification b2 ds).parked_domain := by
  unfold finishClassification
  by_cases h1 : ds.status = "parked" <;> by_cases h2 : ds.status = "dead" <;>
    by_cases h3 : b1.mx_records = true <;>
      simp [h1, h2, h3, hmx ▸ h3, ← hmx, hpk]

/-- Every result of `finishClassification` carries one of the three final
statuses, and its `valid` bit tracks `status == "Valid"`. -/
theorem finishClassification_invariant (base : Results) (ds : DomainStatus) :
    ((finishClassification base ds).status = "Valid" ∨
     (finishClassification base ds).status = "Risky" ∨
     (finishClassification base ds).status = "Invalid") ∧
    ((finishClassification base ds).valid = true ↔
     (finishClassification base ds).status = "Valid") := by
  unfold finishClassification
  by_cases h1 : ds.status = "parked" <;> by_cases h2 : ds.status = "dead" <;>
    by_cases h3 : base.mx_records = true <;> simp [h1, h2, h3]

/-! ## Claim theorems -/

/-- Claim C6 (amended): for every input string rejected by the format gate
(the grammar `label(.label)+`, where Python `$`-semantics also accept a
single trailing newline after a grammar match), `check_domain_validity`
returns the fixed format-failure record — status `Invalid`, reason
`"Invalid domain format"`, `site_live` and `parked_domain` false — with
no dependence whatsoever on the network environment. -/
theorem c6_format_gate (env : NetEnv) (domain0 : String) (h : formatOk domain0 = false) :
    check_domain_validity env domain0 = formatFailResults domain0 := by
  simp [check_domain_validity, checkBody, h]

/-- Claim C6 witness: `"invalid_domain"` fails the gate and is classified
by the fixed format-failure record even in a fully healthy network. -/
theorem c6_format_gate_witness :
    formatOk "invalid_domain" = false ∧
    check_domain_validity envOk "invalid_domain" = formatFailResults "invalid_domain" :=
  ⟨by decide, c6_format_gate envOk "invalid_domain" (by decide)⟩

/-- Claim C6 counterexample: `"a.b\n"` does not match the domain-format
grammar, yet (because Python `$` matches before a trailing newline) the
engine does not return the format-failure reason — it proceeds to DNS
and liveness work and classifies the domain `Valid`. -/
theorem c6_counterexample :
    matchesGrammar "a.b\n" = false ∧
    (check_domain_validity envOk "a.b\n").status = "Valid" ∧
    (check_domain_validity envOk "a.b\n").reason ≠ "Invalid domain format" := by
  refine ⟨by decide, by decide, by decide⟩

/-- Claim C5 (amended): an exception raised anywhere inside the per-domain
try-block is caught at the boundary and converted to a result with status
`Invalid` and reason equal to the exception message prefixed with
`"Error checking records: "`; the batch still emits exactly one result row
per kept input line, including one for the failing domain. -/
theorem c5_fault_boundary (env : NetEnv) (d m : String) (lines : List String)
    (h : checkBody env d = .error m) :
    (check_domain_validity env d).status = "Invalid" ∧
    (check_domain_validity env d).valid = false ∧
    (check_domain_validity env d).reason = "Error checking records: " ++ m ∧
    (process_domain_list env lines).length = (loadDomains lines).length ∧
    (d ∈ loadDomains lines → check_domain_validity env d ∈ process_domain_list env lines) := by
  refine ⟨?_, ?_, ?_, ?_, ?_⟩
  · simp [check_domain_validity, h, errorResults]
  · simp [check_domain_validity, h, errorResults]
  · simp [check_domain_validity, h, errorResults]
  · simp [process_domain_list]
  · intro hd
    exact List.mem_map_of_mem _ hd

/-- Claim C5 witness: with every DNS resolution raising `boom`, the domain
`a.b` yields an `Invalid` row carrying the prefixed message, and a batch
containing it still has one row. -/
theorem c5_fault_boundary_witness :
    (check_domain_validity envRaise "a.b").status = "Invalid" ∧
    (check_domain_validity envRaise "a.b").valid = false ∧
    (check_domain_validity envRaise "a.b").reason = "Error checking records: " ++ "boom" ∧
    (process_domain_list envRaise ["a.b"]).length = (loadDomains ["a.b"]).length ∧
    ("a.b" ∈ loadDomains ["a.b"] →
      check_domain_validity envRaise "a.b" ∈ process_domain_list envRaise ["a.b"]) :=
  c5_fault_boundary envRaise "a.b" "boom" ["a.b"] rfl

/-- Claim C5 counterexample: the reason attached to a converted fault is
NOT the bare exception message — the handler on line 171 prefixes it with
`"Error checking records: "`. -/
theorem c5_counterexample :
    checkBody envRaise "a.b" = .error "boom" ∧
    (check_domain_validity envRaise "a.b").status = "Invalid" ∧
    (check_domain_validity envRaise "a.b").reason = "Error checking records: boom" ∧
    (check_domain_validity envRaise "a.b").reason ≠ "boom" :=
  ⟨rfl, by decide, by decide, by decide⟩

/-- Claim C7 (confirmed): when the resolved MX records contain a target
whose lower-cased text includes a configured parking-MX substring, the
result is `Invalid` with `parked_domain = true` and a reason naming the
FIRST such MX host (lower-cased); no liveness probing is involved. -/
theorem c7_parking_mx (env : NetEnv) (domain0 : String) (recs : List String) (a : Bool)
    (spf dmarc : Option String) (record : String)
    (hf : formatOk domain0 = true)
    (hmx : env.resolve (lowerStr (trimStr domain0)) "MX" = .found recs)
    (hfind : recs.find? (fun r0 =>
      PARKING_MX_PATTERNS.any (fun pattern => hasSub (lowerStr r0) pattern)) = some record)
    (ha : aStep env (lowerStr (trimStr domain0)) = .ok a)
    (hspf : spfStep env (lowerStr (trimStr domain0)) = .ok spf)
    (hdm : dmarcStep env (lowerStr (trimStr domain0)) = .ok dmarc) :
    (check_domain_validity env domain0).status = "Invalid" ∧
    (check_domain_validity env domain0).parked_domain = true ∧
    (check_domain_validity env domain0).valid = false ∧
    (check_domain_validity env domain0).reason = "Domain uses parking MX: " ++ lowerStr record := by
  have hmxStep : mxStep env (lowerStr (trimStr domain0)) = .ok (true, some (lowerStr record)) := by
    simp [mxStep, hmx, findParkingMx_eq, hfind]
  refine ⟨?_, ?_, ?_, ?_⟩ <;>
    simp [check_domain_validity, checkBody, hf, hmxStep, ha, hspf, hdm, Except.bind]

/-- Claim C7 witness: `foo.com` with MX targets
`["mx0.good.test.", "MX1.SedoParking.com."]` is `Invalid`/parked with the
reason naming the first (and only) parking host, lower-cased. -/
theorem c7_parking_mx_witness :
    (check_domain_validity envC7 "foo.com").status = "Invalid" ∧
    (check_domain_validity envC7 "foo.com").parked_domain = true ∧
    (check_domain_validity envC7 "foo.com").valid = false ∧
    (check_domain_validity envC7 "foo.com").reason =
      "Domain uses parking MX: " ++ lowerStr "MX1.SedoParking.com." :=
  c7_parking_mx envC7 "foo.com" ["mx0.good.test.", "MX1.SedoParking.com."] false none none
    "MX1.SedoParking.com." (by decide) rfl (by decide) rfl rfl rfl

/-- Claim C1 (amended): for every domain past the format and DNS gates
whose final liveness outcome is `live` or `subdomain_dead`, the engine
classifies `Valid` with `parked_domain = false` and `site_live` true
exactly when the outcome tag is `live`; the `reason`, however, is the
fixed string `"Domain passed all checks"` — the liveness/escalation
detail is recorded in the separate `domain_details` evidence field, not
in the reason. -/
theorem c1_live_classification (env : NetEnv) (domain0 : String) (mx a : Bool)
    (spf dmarc : Option String) (ds : DomainStatus)
    (hf : formatOk domain0 = true)
    (hmx : mxStep env (lowerStr (trimStr domain0)) = .ok (mx, none))
    (ha : aStep env (lowerStr (trimStr domain0)) = .ok a)
    (hspf : spfStep env (lowerStr (trimStr domain0)) = .ok spf)
    (hdm : dmarcStep env (lowerStr (trimStr domain0)) = .ok dmarc)
    (hgate : mx = true ∨ a = true)
    (hlv : check_domain_liveness env (lowerStr (trimStr domain0)) = .ok ds)
    (hs : ds.status = "live" ∨ ds.status = "subdomain_dead") :
    (check_domain_validity env domain0).status = "Valid" ∧
    (check_domain_validity env domain0).valid = true ∧
    (check_domain_validity env domain0).parked_domain = false ∧
    ((check_domain_validity env domain0).site_live = true ↔ ds.status = "live") ∧
    (check_domain_validity env domain0).reason = "Domain passed all checks" ∧
    (check_domain_validity env domain0).domain_details = some ds.details := by
  have hng : ¬(mx = false ∧ a = false) := by
    rcases hgate with h | h <;> simp [h]
  rcases hs with h | h <;>
    simp [check_domain_validity, checkBody, hf, hmx, ha, hspf, hdm, hlv, Except.bind,
      finishClassification, hng, h]

/-- Claim C1 witness: `mail.example.com` in `envC1` escalates to a live
root and the amended classification holds (Valid, not directly live,
reason the fixed string). -/
theorem c1_live_classification_witness :
    (check_domain_validity envC1 "mail.example.com").status = "Valid" ∧
    (check_domain_validity envC1 "mail.example.com").valid = true ∧
    (check_domain_validity envC1 "mail.example.com").parked_domain = false ∧
    ((check_domain_validity envC1 "mail.example.com").site_live = true ↔
      (DomainStatus.mk "subdomain_dead"
        "Subdomain is dead, but root domain example.com is live").status = "live") ∧
    (check_domain_validity envC1 "mail.example.com").reason = "Domain passed all checks" ∧
    (check_domain_validity envC1 "mail.example.com").domain_details =
      some (DomainStatus.mk "subdomain_dead"
        "Subdomain is dead, but root domain example.com is live").details :=
  c1_live_classification envC1 "mail.example.com" false true none none
    ⟨"subdomain_dead", "Subdomain is dead, but root domain example.com is live"⟩
    (by decide) rfl rfl rfl rfl (Or.inr rfl) rfl (Or.inr rfl)

/-- Claim C1 counterexample: in the escalated case the emitted reason is
the fixed string `"Domain passed all checks"`, which does not reference
the root-domain escalation and differs from the escalation detail the
claim requires the reason to equal. -/
theorem c1_counterexample :
    check_domain_liveness envC1 "mail.example.com" =
      .ok ⟨"subdomain_dead", "Subdomain is dead, but root domain example.com is live"⟩ ∧
    (check_domain_validity envC1 "mail.example.com").status = "Valid" ∧
    (check_domain_validity envC1 "mail.example.com").reason = "Domain passed all checks" ∧
    (check_domain_validity envC1 "mail.example.com").reason ≠
      "Subdomain is dead, but root domain example.com is live" :=
  ⟨rfl, by decide, by decide, by decide⟩

/-- Claim C8 (confirmed): past the format and DNS gates, a final liveness
outcome of `dead` classifies `Risky` with reason
`"Has MX records but site isn't live"` when an MX record exists, and
`Invalid` with the liveness detail as reason when none does; in both
cases `site_live` and `parked_domain` are false. -/
theorem c8_dead_classification (env : NetEnv) (domain0 : String) (mx a : Bool)
    (spf dmarc : Option String) (det : String)
    (hf : formatOk domain0 = true)
    (hmx : mxStep env (lowerStr (trimStr domain0)) = .ok (mx, none))
    (ha : aStep env (lowerStr (trimStr domain0)) = .ok a)
    (hspf : spfStep env (lowerStr (trimStr domain0)) = .ok spf)
    (hdm : dmarcStep env (lowerStr (trimStr domain0)) = .ok dmarc)
    (hgate : mx = true ∨ a = true)
    (hlv : check_domain_liveness env (lowerStr (trimStr domain0)) = .ok ⟨"dead", det⟩) :
    (mx = true →
      (check_domain_validity env domain0).status = "Risky" ∧
      (check_domain_validity env domain0).reason = "Has MX records but site isn\x27t live") ∧
    (mx = false →
      (check_domain_validity env domain0).status = "Invalid" ∧
      (check_domain_validity env domain0).reason = det) ∧
    (check_domain_validity env domain0).site_live = false ∧
    (check_domain_validity env domain0).parked_domain = false ∧
    (check_domain_validity env domain0).valid = false := by
  cases mx with
  | true =>
    simp [check_domain_validity, checkBody, hf, hmx, ha, hspf, hdm, hlv, Except.bind,
      finishClassification]
  | false =>
    have ha2 : a = true := by
      rcases hgate with h | h
      · exact absurd h (by simp)
      · exact h
    subst ha2
    simp [check_domain_validity, checkBody, hf, hmx, ha, hspf, hdm, hlv, Except.bind,
      finishClassification]

/-- Claim C8 witness: `bar.com` has an MX record but no reachable site in
`envC8`, so it is `Risky` with the fixed reason and both flags false. -/
theorem c8_dead_classification_witness :
    ((true : Bool) = true →
      (check_domain_validity envC8 "bar.com").status = "Risky" ∧
      (check_domain_validity envC8 "bar.com").reason = "Has MX records but site isn\x27t live") ∧
    ((true : Bool) = false →
      (check_domain_validity envC8 "bar.com").status = "Invalid" ∧
      (check_domain_validity envC8 "bar.com").reason = "Failed all connection attempts") ∧
    (check_domain_validity envC8 "bar.com").site_live = false ∧
    (check_domain_validity envC8 "bar.com").parked_domain = false ∧
    (check_domain_validity envC8 "bar.com").valid = false :=
  c8_dead_classification envC8 "bar.com" true false none none "Failed all connection attempts"
    (by decide) rfl rfl rfl rfl (Or.inl rfl) rfl

/-- Claim C9 (confirmed): every result returned by `check_domain_validity`
has status `Valid`, `Risky` or `Invalid` (the `"Unknown"` placeholder never
escapes), and its `valid` field is true exactly when the status is
`"Valid"`. -/
theorem c9_status_invariant (env : NetEnv) (domain0 : String) :
    ((check_domain_validity env domain0).status = "Valid" ∨
     (check_domain_validity env domain0).status = "Risky" ∨
     (check_domain_validity env domain0).status = "Invalid") ∧
    ((check_domain_validity env domain0).valid = true ↔
     (check_domain_validity env domain0).status = "Valid") := by
  have hok : ∀ r : Results, checkBody env domain0 = .ok r →
      ((r.status = "Valid" ∨ r.status = "Risky" ∨ r.status = "Invalid") ∧
       (r.valid = true ↔ r.status = "Valid")) := by
    intro r hr
    unfold checkBody at hr
    by_cases hf : formatOk domain0 = false
    · rw [if_pos hf] at hr
      obtain rfl : formatFailResults domain0 = r := by injection hr
      refine ⟨Or.inr (Or.inr rfl), ?_⟩
      simp [formatFailResults]
    · rw [if_neg hf] at hr
      simp only [] at hr
      obtain ⟨mxres, hmx, hr⟩ := bind_ok _ _ _ hr
      obtain ⟨a, hA, hr⟩ := bind_ok _ _ _ hr
      obtain ⟨spf, hspf, hr⟩ := bind_ok _ _ _ hr
      obtain ⟨dm, hdm, hr⟩ := bind_ok _ _ _ hr
      split at hr
      · obtain rfl : _ = r := by injection hr
        refine ⟨Or.inr (Or.inr rfl), ?_⟩
        simp
      · split at hr
        · obtain rfl : _ = r := by injection hr
          refine ⟨Or.inr (Or.inr rfl), ?_⟩
          simp
        · obtain ⟨ds, hlv, hr⟩ := bind_ok _ _ _ hr
          obtain rfl : _ = r := by injection hr
          exact finishClassification_invariant _ ds
  cases hB : checkBody env domain0 with
  | error m =>
    refine ⟨Or.inr (Or.inr ?_), ?_⟩ <;>
      simp [check_domain_validity, hB, errorResults]
  | ok r =>
    have h := hok r hB
    simpa [check_domain_validity, hB] using h

/-- Claim C2 (amended): in the parking detector, when the URL-pattern rule
and the title-keyword rule both fail and the HTML parses, the
body-keyword-density rule fires exactly when the number of configured
keyword-list ENTRIES occurring as substrings of the lower-cased body text
is at least 3 — entries counted with the multiplicity they have in the
configured list, whose `"coming soon"` entry appears twice. -/
theorem c2_body_keyword_rule (response : HttpResponse) (soup : ParsedHtml)
    (hurl : parking_services.any (fun s => hasSub (lowerStr response.url) s) = false)
    (hparse : response.parsed = .ok soup)
    (htitle : PARKING_KEYWORDS.find? (fun keyword =>
      hasSub (titleText soup) (lowerStr keyword)) = none) :
    check_if_parked response =
      (true, "Contains multiple parking keywords (" ++
        Nat.repr (bodyKeywordHits (lowerStr soup.bodyText)) ++ ")") ↔
    3 ≤ bodyKeywordHits (lowerStr soup.bodyText) := by
  by_cases h3 : 3 ≤ bodyKeywordHits (lowerStr soup.bodyText)
  · refine iff_of_true ?_ h3
    simp [check_if_parked, hurl, hparse, htitle, h3]
  · refine iff_of_false ?_ h3
    intro heq
    have hn : bodyKeywordHits (lowerStr soup.bodyText) = 0 ∨
        bodyKeywordHits (lowerStr soup.bodyText) = 1 ∨
        bodyKeywordHits (lowerStr soup.bodyText) = 2 := by omega
    simp only [check_if_parked, hurl, Bool.false_eq_true, if_false, hparse, htitle] at heq
    rw [if_neg h3] at heq
    rcases hn with h | h | h <;> rw [h] at heq <;> split at heq <;>
      first
        | exact absurd heq (by decide)
        | (split at heq <;> exact absurd heq (by decide))

/-- Claim C2 witness: a body holding `"coming soon"` and `"domain name"`
drives the count to 3 (the duplicate entry counts twice), so the body
rule fires and the amended equivalence is instantiated. -/
theorem c2_body_keyword_rule_witness :
    check_if_parked respC2 =
      (true, "Contains multiple parking keywords (" ++
        Nat.repr (bodyKeywordHits (lowerStr parkedBody2.bodyText)) ++ ")") ∧
    3 ≤ bodyKeywordHits (lowerStr parkedBody2.bodyText) := by
  have h3 : 3 ≤ bodyKeywordHits (lowerStr parkedBody2.bodyText) := by decide
  exact ⟨(c2_body_keyword_rule respC2 parkedBody2 (by decide) rfl (by decide)).mpr h3, h3⟩

/-- Claim C2 counterexample: with URL and title rules failing and the HTML
parsed, a body containing only TWO distinct configured keywords
(`"coming soon"`, `"domain name"`) already yields the body-rule parked
verdict, because the duplicated `"coming soon"` list entry is counted
twice — refuting the claim that the rule fires exactly when at least 3
distinct keywords occur. -/
theorem c2_counterexample :
    parking_services.any (fun s => hasSub (lowerStr respC2.url) s) = false ∧
    respC2.parsed = .ok parkedBody2 ∧
    PARKING_KEYWORDS.find? (fun keyword =>
      hasSub (titleText parkedBody2) (lowerStr keyword)) = none ∧
    check_if_parked respC2 = (true, "Contains multiple parking keywords (3)") ∧
    distinctKeywordHits (lowerStr parkedBody2.bodyText) = 2 :=
  ⟨by decide, rfl, by decide, by decide, by decide⟩

/-- Claim C3 (confirmed): a normalized domain with at least 3 labels whose
own probe is `dead` triggers exactly one root re-probe on the last two
labels; a live root upgrades the outcome to `subdomain_dead` (and the
engine then classifies `Valid` with `site_live = false`), while any other
root outcome leaves the original `dead` outcome unchanged. -/
theorem c3_root_escalation (env : NetEnv) (d det : String)
    (hnorm : lowerStr (trimStr d) = d)
    (hlabels : 3 ≤ (splitDots d).length)
    (hdead : checkSingleDomain env d = .ok ⟨"dead", det⟩) :
    (∀ rdet, checkSingleDomain env
        (joinDots ((splitDots d).drop ((splitDots d).length - 2))) = .ok ⟨"live", rdet⟩ →
      check_domain_liveness env d =
        .ok ⟨"subdomain_dead", "Subdomain is dead, but root domain " ++
          joinDots ((splitDots d).drop ((splitDots d).length - 2)) ++ " is live"⟩) ∧
    (∀ rs, checkSingleDomain env
        (joinDots ((splitDots d).drop ((splitDots d).length - 2))) = .ok rs →
      rs.status ≠ "live" → check_domain_liveness env d = .ok ⟨"dead", det⟩) ∧
    (∀ mx a spf dmarc, formatOk d = true →
      mxStep env d = .ok (mx, none) → aStep env d = .ok a →
      spfStep env d = .ok spf → dmarcStep env d = .ok dmarc →
      (mx = true ∨ a = true) →
      ∀ rdet, checkSingleDomain env
          (joinDots ((splitDots d).drop ((splitDots d).length - 2))) = .ok ⟨"live", rdet⟩ →
        (check_domain_validity env d).status = "Valid" ∧
        (check_domain_validity env d).valid = true ∧
        (check_domain_validity env d).site_live = false) := by
  have hdot : 1 < countDot d := by
    have := splitDots_length d
    omega
  have hlen : 2 < (splitDots d).length := by omega
  have hlive : ∀ rdet, checkSingleDomain env
      (joinDots ((splitDots d).drop ((splitDots d).length - 2))) = .ok ⟨"live", rdet⟩ →
      check_domain_liveness env d =
        .ok ⟨"subdomain_dead", "Subdomain is dead, but root domain " ++
          joinDots ((splitDots d).drop ((splitDots d).length - 2)) ++ " is live"⟩ := by
    intro rdet hroot
    unfold check_domain_liveness
    rw [hnorm]
    simp [hdead, Except.bind, hdot, hlen, hroot]
  refine ⟨hlive, ?_, ?_⟩
  · intro rs hroot hrs
    unfold check_domain_liveness
    rw [hnorm]
    simp [hdead, Except.bind, hdot, hlen, hroot, hrs]
  · intro mx a spf dmarc hf hmx ha hspf hdm hgate rdet hroot
    have hlv := hlive rdet hroot
    have hng : ¬(mx = false ∧ a = false) := by
      rcases hgate with h | h <;> simp [h]
    refine ⟨?_, ?_, ?_⟩ <;>
      simp [check_domain_validity, checkBody, hf, hnorm, hmx, ha, hspf, hdm, hlv, Except.bind,
        finishClassification, hng]

/-- Claim C3 witness: `mail.example.com` (3 labels, dead itself, root
`example.com` live over HTTPS) upgrades to `subdomain_dead` and the
engine classifies it `Valid` and not directly live. -/
theorem c3_root_escalation_witness :
    check_domain_liveness envC1 "mail.example.com" =
      .ok ⟨"subdomain_dead", "Subdomain is dead, but root domain " ++
        joinDots ((splitDots "mail.example.com").drop
          ((splitDots "mail.example.com").length - 2)) ++ " is live"⟩ ∧
    (check_domain_validity envC1 "mail.example.com").status = "Valid" ∧
    (check_domain_validity envC1 "mail.example.com").valid = true ∧
    (check_domain_validity envC1 "mail.example.com").site_live = false := by
  obtain ⟨h1, h2, h3⟩ := c3_root_escalation envC1 "mail.example.com"
    "Failed all connection attempts" (by decide) (by decide) rfl
  exact ⟨h1 "HTTPS: 200" rfl,
    h3 false true none none (by decide) rfl rfl rfl rfl (Or.inr rfl) "HTTPS: 200" rfl⟩

/-- Socket-level facts for the fallback chain: trace agreement, attempts
made, the dead condition, and the fixed socket-live detail. -/
theorem sockFallback_spec (env : NetEnv) (d : String)
    (h3 : ∀ m, env.sockConnect d 80 ≠ .raised m)
    (h4 : ∀ m, env.sockConnect d 443 ≠ .raised m) :
    (traceSock env d).1 = sockFallback env d ∧
    (traceSock env d).2 =
      .sock80 :: (if env.sockConnect d 80 = .connected then [] else [.sock443]) ∧
    (sockFallback env d = .ok ⟨"dead", "Failed all connection attempts"⟩ ↔
      (env.sockConnect d 80 = .sockFail ∧ env.sockConnect d 443 = .sockFail)) ∧
    ((env.sockConnect d 80 = .connected ∨
        (env.sockConnect d 80 = .sockFail ∧ env.sockConnect d 443 = .connected)) →
      sockFallback env d = .ok ⟨"live", "Socket connection successful, but HTTP failed"⟩) := by
  cases hs80 : env.sockConnect d 80 with
  | raised m => exact absurd hs80 (h3 m)
  | connected => simp [traceSock, sockFallback, hs80]
  | sockFail =>
    cases hs443 : env.sockConnect d 443 with
    | raised m => exact absurd hs443 (h4 m)
    | connected => simp [traceSock, sockFallback, hs80, hs443]
    | sockFail => simp [traceSock, sockFallback, hs80, hs443]

/-- HTTP-level facts for the fallback chain, composing the socket level. -/
theorem httpFallback_spec (env : NetEnv) (d : String)
    (h2 : ∀ m, env.httpGet d ≠ .raised m)
    (h3 : ∀ m, env.sockConnect d 80 ≠ .raised m)
    (h4 : ∀ m, env.sockConnect d 443 ≠ .raised m) :
    (traceHttp env d).1 = httpFallback env d ∧
    (traceHttp env d).2 =
      .httpReq :: (if fetchBelow400 (env.httpGet d) = true then []
        else .sock80 :: (if env.sockConnect d 80 = .connected then [] else [.sock443])) ∧
    (httpFallback env d = .ok ⟨"dead", "Failed all connection attempts"⟩ ↔
      (fetchBelow400 (env.httpGet d) = false ∧
       env.sockConnect d 80 = .sockFail ∧ env.sockConnect d 443 = .sockFail)) ∧
    (fetchBelow400 (env.httpGet d) = false →
      (env.sockConnect d 80 = .connected ∨
        (env.sockConnect d 80 = .sockFail ∧ env.sockConnect d 443 = .connected)) →
      httpFallback env d = .ok ⟨"live", "Socket connection successful, but HTTP failed"⟩) := by
  obtain ⟨q1, q2, q3, q4⟩ := sockFallback_spec env d h3 h4
  cases hhp : env.httpGet d with
  | raised m => exact absurd hhp (h2 m)
  | failed =>
    refine ⟨by simp [traceHttp, httpFallback, hhp, q1],
            by simp [traceHttp, hhp, fetchBelow400, q2],
            by simp [httpFallback, hhp, fetchBelow400, q3],
            ?_⟩
    intro _ hp
    simpa [httpFallback, hhp] using q4 hp
  | resp r2 =>
    by_cases hst2 : r2.status_code < 400
    · cases hpk : check_if_parked r2 with
      | mk b reason =>
        cases b <;>
          exact ⟨by simp [traceHttp, httpFallback, hhp, hst2, hpk],
                 by simp [traceHttp, hhp, hst2, hpk, fetchBelow400],
                 by simp [httpFallback, hhp, hst2, hpk, fetchBelow400],
                 by simp [fetchBelow400, hst2]⟩
    · refine ⟨by simp [traceHttp, httpFallback, hhp, hst2, q1],
              by simp [traceHttp, hhp, hst2, fetchBelow400, q2],
              by simp [httpFallback, hhp, hst2, fetchBelow400, q3],
              ?_⟩
      intro _ hp
      simpa [httpFallback, hhp, hst2] using q4 hp

/-- Claim C4 (confirmed): the prober attempts HTTPS, HTTP, TCP port 80 and
TCP port 443 in that fixed order, each later step made exactly when no
earlier step produced a response with status below 400 (or a socket
connection); `dead` arises exactly when all four attempts fail, and a
bare successful socket connect on either port yields the fixed live
detail `"Socket connection successful, but HTTP failed"` with no parking
inspection of any content. -/
theorem c4_fallback_chain (env : NetEnv) (d : String)
    (h1 : ∀ m, env.httpsGet d ≠ .raised m)
    (h2 : ∀ m, env.httpGet d ≠ .raised m)
    (h3 : ∀ m, env.sockConnect d 80 ≠ .raised m)
    (h4 : ∀ m, env.sockConnect d 443 ≠ .raised m) :
    (checkSingleDomainTrace env d).1 = checkSingleDomain env d ∧
    (checkSingleDomainTrace env d).2 =
      .httpsReq :: (if fetchBelow400 (env.httpsGet d) = true then []
        else .httpReq :: (if fetchBelow400 (env.httpGet d) = true then []
          else .sock80 :: (if env.sockConnect d 80 = .connected then [] else [.sock443]))) ∧
    (checkSingleDomain env d = .ok ⟨"dead", "Failed all connection attempts"⟩ ↔
      (fetchBelow400 (env.httpsGet d) = false ∧ fetchBelow400 (env.httpGet d) = false ∧
       env.sockConnect d 80 = .sockFail ∧ env.sockConnect d 443 = .sockFail)) ∧
    (fetchBelow400 (env.httpsGet d) = false → fetchBelow400 (env.httpGet d) = false →
      (env.sockConnect d 80 = .connected ∨
        (env.sockConnect d 80 = .sockFail ∧ env.sockConnect d 443 = .connected)) →
      checkSingleDomain env d = .ok ⟨"live", "Socket connection successful, but HTTP failed"⟩) := by
  obtain ⟨q1, q2, q3, q4⟩ := httpFallback_spec env d h2 h3 h4
  cases hhs : env.httpsGet d with
  | raised m => exact absurd hhs (h1 m)
  | failed =>
    refine ⟨by simp [checkSingleDomainTrace, checkSingleDomain, hhs, q1],
            by simp [checkSingleDomainTrace, hhs, fetchBelow400, q2],
            by simp [checkSingleDomain, hhs, fetchBelow400, q3],
            ?_⟩
    intro _ hp hq
    simpa [checkSingleDomain, hhs] using q4 hp hq
  | resp r =>
    by_cases hst : r.status_code < 400
    · cases hpk : check_if_parked r with
      | mk b reason =>
        cases b <;>
          exact ⟨by simp [checkSingleDomainTrace, checkSingleDomain, hhs, hst, hpk],
                 by simp [checkSingleDomainTrace, hhs, hst, hpk, fetchBelow400],
                 by simp [checkSingleDomain, hhs, hst, hpk, fetchBelow400],
                 by simp [fetchBelow400, hst]⟩
    · refine ⟨by simp [checkSingleDomainTrace, checkSingleDomain, hhs, hst, q1],
              by simp [checkSingleDomainTrace, hhs, hst, fetchBelow400, q2],
              by simp [checkSingleDomain, hhs, hst, fetchBelow400, q3],
              ?_⟩
      intro _ hp hq
      simpa [checkSingleDomain, hhs, hst] using q4 hp hq

/-- Claim C4 witness: in a fully unreachable environment the prober makes
all four attempts in order and returns the dead outcome. -/
theorem c4_fallback_chain_witness :
    (checkSingleDomainTrace envDead "x.com").2 =
      [.httpsReq, .httpReq, .sock80, .sock443] ∧
    checkSingleDomain envDead "x.com" = .ok ⟨"dead", "Failed all connection attempts"⟩ := by
  obtain ⟨q1, q2, q3, q4⟩ := c4_fallback_chain envDead "x.com"
    (fun m h => nomatch h) (fun m h => nomatch h) (fun m h => nomatch h) (fun m h => nomatch h)
  refine ⟨?_, q3.mpr ⟨rfl, rfl, rfl, rfl⟩⟩
  simpa [envDead, fetchBelow400] using q2

/-- Claim C10 (confirmed): two runs over the same domain in environments
that agree on MX and A resolution and on all HTTPS/HTTP/socket behavior,
and whose TXT lookups (for the domain and for `_dmarc.<domain>`) return
responses — answers or resolution failures, never an unexpected raised
exception — produce identical `status`, `reason`, `site_live` and
`parked_domain` fields, whatever the TXT answers are: SPF and DMARC are
evidence-only. -/
theorem c10_txt_evidence_only (env1 env2 : NetEnv) (d : String)
    (hmxr : ∀ x, env1.resolve x "MX" = env2.resolve x "MX")
    (hAr : ∀ x, env1.resolve x "A" = env2.resolve x "A")
    (hh : ∀ x, env1.httpsGet x = env2.httpsGet x)
    (hp : ∀ x, env1.httpGet x = env2.httpGet x)
    (hs : ∀ x p, env1.sockConnect x p = env2.sockConnect x p)
    (ht1 : ∀ x m, env1.resolve x "TXT" ≠ .raised m)
    (ht2 : ∀ x m, env2.resolve x "TXT" ≠ .raised m) :
    (check_domain_validity env1 d).status = (check_domain_validity env2 d).status ∧
    (check_domain_validity env1 d).reason = (check_domain_validity env2 d).reason ∧
    (check_domain_validity env1 d).site_live = (check_domain_validity env2 d).site_live ∧
    (check_domain_validity env1 d).parked_domain = (check_domain_validity env2 d).parked_domain := by
  have hmxs : mxStep env1 (lowerStr (trimStr d)) = mxStep env2 (lowerStr (trimStr d)) := by
    unfold mxStep
    rw [hmxr]
  have hAs : aStep env1 (lowerStr (trimStr d)) = aStep env2 (lowerStr (trimStr d)) := by
    unfold aStep
    rw [hAr]
  obtain ⟨s1, hspf1⟩ := spfStep_ok env1 (lowerStr (trimStr d)) (ht1 _)
  obtain ⟨s2, hspf2⟩ := spfStep_ok env2 (lowerStr (trimStr d)) (ht2 _)
  obtain ⟨m1, hdm1⟩ := dmarcStep_ok env1 (lowerStr (trimStr d)) ht1
  obtain ⟨m2, hdm2⟩ := dmarcStep_ok env2 (lowerStr (trimStr d)) ht2
  have hlv : check_domain_liveness env1 (lowerStr (trimStr d)) =
      check_domain_liveness env2 (lowerStr (trimStr d)) :=
    check_domain_liveness_ext env1 env2 hh hp hs _
  by_cases hf : formatOk d = false
  · simp [check_domain_validity, checkBody, hf]
  · cases hmx2 : mxStep env2 (lowerStr (trimStr d)) with
    | error m =>
      have hmx1 : mxStep env1 (lowerStr (trimStr d)) = .error m := hmxs.trans hmx2
      simp [check_domain_validity, checkBody, hf, hmx1, hmx2, Except.bind]
    | ok mxres =>
      have hmx1 : mxStep env1 (lowerStr (trimStr d)) = .ok mxres := hmxs.trans hmx2
      cases hA2 : aStep env2 (lowerStr (trimStr d)) with
      | error m =>
        have hA1 : aStep env1 (lowerStr (trimStr d)) = .error m := hAs.trans hA2
        simp [check_domain_validity, checkBody, hf, hmx1, hmx2, hA1, hA2, Except.bind]
      | ok a =>
        have hA1 : aStep env1 (lowerStr (trimStr d)) = .ok a := hAs.trans hA2
        by_cases hg : (mxres.1 = false ∧ a = false)
        · simp [check_domain_validity, checkBody, hf, hmx1, hmx2, hA1, hA2,
            hspf1, hspf2, hdm1, hdm2, Except.bind, hg]
        · cases hmp : mxres.2 with
          | some host =>
            simp [check_domain_validity, checkBody, hf, hmx1, hmx2, hA1, hA2,
              hspf1, hspf2, hdm1, hdm2, Except.bind, hg, hmp]
          | none =>
            cases hlv2 : check_domain_liveness env2 (lowerStr (trimStr d)) with
            | error m =>
              have hlv1 := hlv.trans hlv2
              simp [check_domain_validity, checkBody, hf, hmx1, hmx2, hA1, hA2,
                hspf1, hspf2, hdm1, hdm2, Except.bind, hg, hmp, hlv1, hlv2]
            | ok ds =>
              have hlv1 := hlv.trans hlv2
              have hfields := finishClassification_fields
                { domain := lowerStr (trimStr d), mx_records := mxres.1, a_records := a,
                  spf_record := s1, dmarc_record := m1, site_live := false,
                  parked_domain := false, valid := false, status := "Unknown", reason := "",
                  parking_mx := mxres.2, domain_details := none }
                { domain := lowerStr (trimStr d), mx_records := mxres.1, a_records := a,
                  spf_record := s2, dmarc_record := m2, site_live := false,
                  parked_domain := false, valid := false, status := "Unknown", reason := "",
                  parking_mx := mxres.2, domain_details := none }
                ds rfl rfl
              simpa [check_domain_validity, checkBody, hf, hmx1, hmx2, hA1, hA2,
                hspf1, hspf2, hdm1, hdm2, Except.bind, hg, hmp, hlv1, hlv2] using hfields

/-- Claim C10 witness: two concrete environments differing only in whether
TXT lookups answer produce identical classification fields for `a.b`. -/
theorem c10_txt_evidence_only_witness :
    (check_domain_validity envTxtA "a.b").status = (check_domain_validity envTxtB "a.b").status ∧
    (check_domain_validity envTxtA "a.b").reason = (check_domain_validity envTxtB "a.b").reason ∧
    (check_domain_validity envTxtA "a.b").site_live =
      (check_domain_validity envTxtB "a.b").site_live ∧
    (check_domain_validity envTxtA "a.b").parked_domain =
      (check_domain_validity envTxtB "a.b").parked_domain :=
  c10_txt_evidence_only envTxtA envTxtB "a.b" (fun _ => rfl) (fun _ => rfl) (fun _ => rfl)
    (fun _ => rfl) (fun _ _ => rfl) (fun _ _ h => nomatch h) (fun _ _ h => nomatch h)
